import Mathlib

/-!
Shallow embedding of the document-to-answer pipeline of `app_simple.py`
(HackRX 5.0 query-retrieval service).

Python strings are modelled as `List Char` (`Str`).  The external
collaborators — the HTTP download (`requests.get`), the PDF parser
(`PyPDF2`), the DOCX parser (`python-docx`) and the generative model
(`genai.GenerativeModel('gemini-pro').generate_content`) — are modelled
as oracle functions returning `Except`: an `Except.error e` models the
Python call raising an exception whose `str(e)` is `e`.  The filesystem
holding temporary artifacts is an explicit association list from paths
to contents, threaded through the handlers.  An `HTTPException` raised
by the handlers is modelled as `HTTPError` (status code plus detail
string); timestamps in response metadata are real time and are omitted.
-/

/-- Python strings, modelled as lists of characters. -/
abbrev Str := List Char

/-- Python `str.lower()` on one character (ASCII case mapping, which is all
the extension gate needs). -/
def pyLower (c : Char) : Char := c.toLower

/-- Python `str.lower()` on a whole string. -/
def lowerStr (s : Str) : Str := s.map pyLower

/-- Python `str.strip()` whitespace set (ASCII part: space, tab, newline,
carriage return, vertical tab, form feed). -/
def isPyWS (c : Char) : Bool :=
  c = ' ' || c = '\t' || c = '\n' || c = '\r' || c = '\x0b' || c = '\x0c'

/-- Python `s.strip()`: remove leading and trailing whitespace. -/
def pyStrip (s : Str) : Str :=
  ((s.dropWhile isPyWS).reverse.dropWhile isPyWS).reverse

/-- Python slice `text[:C]` — the text budgeter of the pipeline.  In
`process_with_gemini` (line 134) it is applied with `C = 8000`. -/
def budget (text : Str) (C : Nat) : Str := text.take C

/-- Python `os.path.splitext(name)[1]`: the extension starting at the last
dot of the final path component, provided some earlier character of that
component is not a dot (so `.bashrc` has no extension). -/
def splitextExt (name : Str) : Str :=
  let base := (name.reverse.takeWhile (fun c => c != '/')).reverse
  let rest := base.dropWhile (fun c => c == '.')
  if rest.contains '.' then
    '.' :: (rest.reverse.takeWhile (fun c => c != '.')).reverse
  else []

/-- An `HTTPException(status_code=..., detail=...)` raised by a handler. -/
structure HTTPError where
  status : Nat
  detail : Str
deriving DecidableEq

/-- External collaborators of the pipeline.  Each oracle maps its input to
either the produced value or the message of the exception it raised:
`download` is `requests.get(url)` returning the body bytes, `pdfExtract`
is the PyPDF2 page loop over the file's bytes, `docxExtract` is the
python-docx paragraph join, `model` is one `generate_content(prompt)`
call returning `response.text`. -/
structure Oracles where
  download : Str → Except Str Str
  pdfExtract : Str → Except Str Str
  docxExtract : Str → Except Str Str
  model : Str → Except Str Str

/-- Filesystem: association list from path to file content (most recent
write first). -/
abbrev FS := List (Str × Str)

/-- Write a file (`tmp_file.write(content)` after `NamedTemporaryFile`). -/
def fsWrite (fs : FS) (p c : Str) : FS := (p, c) :: fs

/-- Delete a path (`os.unlink`). -/
def fsDelete (fs : FS) (p : Str) : FS := fs.filter (fun e => e.1 != p)

/-- Path existence test (`os.path.exists`). -/
def fsExists (fs : FS) (p : Str) : Bool := fs.any (fun e => e.1 == p)

/-- Read a file's content (`open(file_path, 'rb').read()`). -/
def fsRead (fs : FS) (p : Str) : Option Str :=
  (fs.find? (fun e => e.1 == p)).map (fun e => e.2)

/-- Stem of the fresh temporary path handed out by
`tempfile.NamedTemporaryFile`; the suffix argument is appended to it.
One request creates at most one temporary, so one fresh stem suffices. -/
def tempStem : Str := "/tmp/tmp8f3k2q1x".toList

/-- The literal text of the prompt f-string (lines 132 to 139) before the
`text[:8000]` interpolation. -/
def promptPart1 : Str := "\n            Document Text:\n            ".toList

/-- The literal text of the prompt f-string between the `text[:8000]`
interpolation and the `question` interpolation. -/
def promptPart2 : Str :=
  "  # Limit text to avoid token limits\n            \n            Question: ".toList

/-- The literal text of the prompt f-string after the `question`
interpolation, including the fixed fallback-phrase instruction. -/
def promptPart3 : Str :=
  "\n            \n            Please provide a clear, concise answer based on the document content. If the answer is not found in the document, say \"Information not found in the document.\"\n            ".toList

/-- The fixed fallback phrase the prompt instructs the model to return. -/
def fallbackPhrase : Str := "Information not found in the document.".toList

/-- The prompt built for one question inside `process_with_gemini`
(lines 132 to 139): the f-string with `text[:8000]` and `question`
interpolated. -/
def buildPrompt (text question : Str) : Str :=
  promptPart1 ++ budget text 8000 ++ promptPart2 ++ question ++ promptPart3

/-- Body of the `for question in questions` loop of `process_with_gemini`
(lines 131 to 144): call the model once per question in order, strip each
response, and stop at the first raised exception.  Besides the Python
function's result it also returns the list of prompts actually sent to
the model, so that which questions were attempted is observable. -/
def geminiLoop (model : Str → Except Str Str) (text : Str) :
    List Str → Except Str (List Str) × List Str
  | [] => (.ok [], [])
  | q :: qs =>
      match model (buildPrompt text q) with
      | .error e => (.error e, [buildPrompt text q])
      | .ok r =>
          match geminiLoop model text qs with
          | (.error e, calls) => (.error e, buildPrompt text q :: calls)
          | (.ok answers, calls) =>
              (.ok (pyStrip r :: answers), buildPrompt text q :: calls)

/-- Python `process_with_gemini(text, questions)` (lines 125 to 147): run
the question loop; any exception is converted to
`HTTPException(500, "Error processing with AI: ...")`. -/
def process_with_gemini (model : Str → Except Str Str) (text : Str)
    (questions : List Str) : Except HTTPError (List Str) :=
  match (geminiLoop model text questions).1 with
  | .error e => .error ⟨500, "Error processing with AI: ".toList ++ e⟩
  | .ok answers => .ok answers

/-- Python `extract_text_from_pdf(file_path)` (lines 88 to 99): open the
file and run the PyPDF2 extraction; any exception is converted to
`HTTPException(500, "Error processing PDF: ...")`. -/
def extract_text_from_pdf (o : Oracles) (fs : FS) (file_path : Str) :
    Except HTTPError Str :=
  match fsRead fs file_path with
  | none => .error ⟨500, "Error processing PDF: no such file".toList⟩
  | some content =>
      match o.pdfExtract content with
      | .error e => .error ⟨500, "Error processing PDF: ".toList ++ e⟩
      | .ok text => .ok text

/-- Python `extract_text_from_docx(file_path)` (lines 101 to 109): open the
file and run the python-docx extraction; any exception is converted to
`HTTPException(500, "Error processing DOCX: ...")`. -/
def extract_text_from_docx (o : Oracles) (fs : FS) (file_path : Str) :
    Except HTTPError Str :=
  match fsRead fs file_path with
  | none => .error ⟨500, "Error processing DOCX: no such file".toList⟩
  | some content =>
      match o.docxExtract content with
      | .error e => .error ⟨500, "Error processing DOCX: ".toList ++ e⟩
      | .ok text => .ok text

/-- Python `download_document(url)` (lines 111 to 123): fetch the URL and
write the body to a fresh temporary file with suffix `'.pdf'`; any
exception becomes `HTTPException(400, "Error downloading document: ...")`. -/
def download_document (o : Oracles) (url : Str) (fs : FS) :
    Except HTTPError Str × FS :=
  match o.download url with
  | .error e => (.error ⟨400, "Error downloading document: ".toList ++ e⟩, fs)
  | .ok content =>
      let p := tempStem ++ ".pdf".toList
      (.ok p, fsWrite fs p content)

/-- Response of the `/hackrx/run` endpoint: answers plus the metadata
fields with data content (`total_questions`, `text_length`); the
timestamp and constant model name are omitted. -/
structure QueryResponse where
  answers : List Str
  total_questions : Nat
  text_length : Nat
deriving DecidableEq

/-- Response of the `/hackrx/upload` endpoint. -/
structure FileUploadResponse where
  answers : List Str
  total_questions : Nat
  file_size : Nat
  text_length : Nat
  filename : Str
deriving DecidableEq

/-- Python handler `process_document_url` (lines 159 to 202): download to a
temp file, extract text (the extension conditional on lines 173 to 176
calls `extract_text_from_pdf` in both branches — PDF is assumed for every
URL), answer the questions, and unconditionally delete the temp file in
the `finally` block (lines 193 to 196). -/
def process_document_url (o : Oracles) (documents : Str) (questions : List Str)
    (fs : FS) : Except HTTPError QueryResponse × FS :=
  match download_document o documents fs with
  | (.error e, fs1) => (.error e, fs1)
  | (.ok temp_file, fs1) =>
      let text? :=
        if (".pdf".toList).isSuffixOf (lowerStr temp_file) then
          extract_text_from_pdf o fs1 temp_file
        else
          extract_text_from_pdf o fs1 temp_file
      let inner : Except HTTPError QueryResponse :=
        match text? with
        | .error e => .error e
        | .ok text =>
            match process_with_gemini o.model text questions with
            | .error e => .error e
            | .ok answers => .ok ⟨answers, questions.length, text.length⟩
      let fs2 := if fsExists fs1 temp_file then fsDelete fs1 temp_file else fs1
      (inner, fs2)

/-- Validation failure produced by FastAPI/pydantic when the request body
violates the `QueryRequest` schema; `questions` is declared with
`min_items=1` (line 66), so an empty list is rejected with a 422 before
the handler body runs. -/
def validationError : HTTPError :=
  ⟨422, "questions: ensure this value has at least 1 items".toList⟩

/-- The `/hackrx/run` endpoint as the caller sees it: pydantic validates
the `QueryRequest` body (`questions` has `min_items=1`, line 66) and only
then runs the handler `process_document_url`. -/
def urlEndpoint (o : Oracles) (documents : Str) (questions : List Str)
    (fs : FS) : Except HTTPError QueryResponse × FS :=
  if questions.length < 1 then (.error validationError, fs)
  else process_document_url o documents questions fs

/-- The allowed upload extensions (line 218). -/
def allowed_extensions : List Str :=
  [".pdf".toList, ".doc".toList, ".docx".toList]

/-- Python `os.path.splitext(file.filename)[1].lower()` (line 219). -/
def fileExtOf (filename : Str) : Str := lowerStr (splitextExt filename)

/-- The upload format gate (lines 218 to 221): the lowercased extension
must be one of the allowed extensions. -/
def extGateAccepts (filename : Str) : Bool :=
  allowed_extensions.contains (fileExtOf filename)

/-- Python handler `process_file_upload` (lines 204 to 268).  `questions`
arrives as a form string; `json.loads` of it is modelled as the given
`Except Unit (List Str)` (error = `json.JSONDecodeError`, mapped to a 400
on line 263).  Then: extension gate, temp file with suffix `file_ext`,
extraction dispatched on the extension, the Gemini loop, and the
`finally` block (lines 257 to 260) deleting the temp file. -/
def process_file_upload (o : Oracles) (filename content : Str)
    (questionsJson : Except Unit (List Str)) (fs : FS) :
    Except HTTPError FileUploadResponse × FS :=
  match questionsJson with
  | .error _ => (.error ⟨400, "Invalid JSON format for questions".toList⟩, fs)
  | .ok questions_list =>
      let file_ext := fileExtOf filename
      if extGateAccepts filename then
        let temp_file_path := tempStem ++ file_ext
        let fs1 := fsWrite fs temp_file_path content
        let text? :=
          if file_ext = ".pdf".toList then
            extract_text_from_pdf o fs1 temp_file_path
          else if file_ext = ".doc".toList ∨ file_ext = ".docx".toList then
            extract_text_from_docx o fs1 temp_file_path
          else .error ⟨400, "Unsupported file format".toList⟩
        let inner : Except HTTPError FileUploadResponse :=
          match text? with
          | .error e => .error e
          | .ok text =>
              match process_with_gemini o.model text questions_list with
              | .error e => .error e
              | .ok answers =>
                  .ok ⟨answers, questions_list.length, content.length,
                       text.length, filename⟩
        let fs2 :=
          if fsExists fs1 temp_file_path then fsDelete fs1 temp_file_path
          else fs1
        (inner, fs2)
      else (.error ⟨400, "Unsupported file type: ".toList ++ file_ext⟩, fs)

/-! Helper lemmas (shared across the claim theorems). -/

lemma fsExists_fsWrite_self (fs : FS) (p c : Str) :
    fsExists (fsWrite fs p c) p = true := by
  simp [fsExists, fsWrite]

lemma fsExists_fsDelete_self (fs : FS) (p : Str) :
    fsExists (fsDelete fs p) p = false := by
  simp only [fsExists, fsDelete, List.any_eq_false]
  intro e he
  have h2 := (List.mem_filter.1 he).2
  simp only [bne_iff_ne, ne_eq] at h2
  simp [h2]

lemma geminiLoop_ok_spec (m : Str → Except Str Str) (t : Str) (qs : List Str) :
    ∀ ans, (geminiLoop m t qs).1 = .ok ans →
      ans.length = qs.length ∧
      ∀ (i : Nat) (q : Str), qs[i]? = some q →
        ∃ r, m (buildPrompt t q) = .ok r ∧ ans[i]? = some (pyStrip r) := by
  induction qs with
  | nil =>
      intro ans h
      simp [geminiLoop] at h
      subst h
      exact ⟨rfl, by intro i q hq; simp at hq⟩
  | cons q qs ih =>
      intro ans h
      rw [geminiLoop] at h
      cases hm : m (buildPrompt t q) with
      | error e => rw [hm] at h; simp at h
      | ok r =>
          rw [hm] at h
          cases hrest : geminiLoop m t qs with
          | mk res calls =>
              rw [hrest] at h
              cases res with
              | error e => simp at h
              | ok answers =>
                  simp only at h
                  injection h with h
                  subst h
                  have hres1 : (geminiLoop m t qs).1 = .ok answers := by
                    rw [hrest]
                  obtain ⟨hlen, hidx⟩ := ih answers hres1
                  refine ⟨by simp [hlen], ?_⟩
                  intro i qi hqi
                  cases i with
                  | zero =>
                      simp at hqi
                      subst hqi
                      exact ⟨r, hm, by simp⟩
                  | succ i =>
                      simp at hqi
                      obtain ⟨r', hr', ha'⟩ := hidx i qi hqi
                      exact ⟨r', hr', by simpa using ha'⟩

lemma geminiLoop_err_spec (m : Str → Except Str Str) (t : Str) (qs : List Str) :
    ∀ (k : Nat) (qk e : Str),
      qs[k]? = some qk →
      (∀ (j : Nat) (qj : Str), j < k → qs[j]? = some qj → ∃ r, m (buildPrompt t qj) = .ok r) →
      m (buildPrompt t qk) = .error e →
      (geminiLoop m t qs).1 = .error e ∧
      (geminiLoop m t qs).2.length = k + 1 := by
  induction qs with
  | nil => intro k qk e hk _ _; simp at hk
  | cons q qs ih =>
      intro k qk e hk hbefore hfail
      cases k with
      | zero =>
          simp at hk
          subst hk
          rw [geminiLoop, hfail]
          exact ⟨rfl, rfl⟩
      | succ k =>
          simp only [List.getElem?_cons_succ] at hk
          obtain ⟨r0, hr0⟩ := hbefore 0 q (Nat.succ_pos k) (by simp)
          have hrec := ih k qk e hk
            (fun j qj hj hq => hbefore (j + 1) qj (by omega) (by simpa using hq))
            hfail
          rw [geminiLoop, hr0]
          cases hrest : geminiLoop m t qs with
          | mk res calls =>
              rw [hrest] at hrec
              simp only at hrec
              obtain ⟨h1, h2⟩ := hrec
              subst h1
              exact ⟨rfl, by simp [h2]⟩

lemma head?_dropWhile_not (p : Char → Bool) (l : Str) (c : Char)
    (h : (l.dropWhile p).head? = some c) : p c = false := by
  induction l with
  | nil => simp [List.dropWhile] at h
  | cons x xs ih =>
      rw [List.dropWhile_cons] at h
      by_cases hx : p x = true
      · rw [if_pos hx] at h; exact ih h
      · rw [if_neg hx] at h
        simp only [List.head?_cons, Option.some.injEq] at h
        subst h
        simpa using hx

lemma dropWhile_decomp (p : Char → Bool) (l : Str) :
    ∃ t, l = t ++ l.dropWhile p := by
  induction l with
  | nil => exact ⟨[], rfl⟩
  | cons x xs ih =>
      rw [List.dropWhile_cons]
      by_cases hx : p x = true
      · rw [if_pos hx]
        obtain ⟨t, ht⟩ := ih
        exact ⟨x :: t, by rw [List.cons_append, ← ht]⟩
      · rw [if_neg hx]
        exact ⟨[], rfl⟩

lemma head?_append_left (l₁ l₂ : Str) (c : Char) (h : l₁.head? = some c) :
    (l₁ ++ l₂).head? = some c := by
  cases l₁ with
  | nil => simp at h
  | cons x xs => simpa using h

lemma pyStrip_head_not_ws (s : Str) (c : Char)
    (h : (pyStrip s).head? = some c) : isPyWS c = false := by
  unfold pyStrip at h
  obtain ⟨t, ht⟩ := dropWhile_decomp isPyWS (s.dropWhile isPyWS).reverse
  have hA : s.dropWhile isPyWS
      = ((s.dropWhile isPyWS).reverse.dropWhile isPyWS).reverse ++ t.reverse := by
    have h' := congrArg List.reverse ht
    simpa [List.reverse_append] using h'
  have hAhead : (s.dropWhile isPyWS).head? = some c := by
    rw [hA]; exact head?_append_left _ _ _ h
  exact head?_dropWhile_not _ _ _ hAhead

lemma pyStrip_getLast_not_ws (s : Str) (c : Char)
    (h : (pyStrip s).getLast? = some c) : isPyWS c = false := by
  have h2 : (pyStrip s).reverse.head? = some c := by
    rw [List.head?_reverse]; exact h
  unfold pyStrip at h2
  rw [List.reverse_reverse] at h2
  exact head?_dropWhile_not _ _ _ h2

lemma dropWhile_eq_self_of_head (p : Char → Bool) (l : Str)
    (h : ∀ c, l.head? = some c → p c = false) : l.dropWhile p = l := by
  cases l with
  | nil => rfl
  | cons x xs =>
      have hx := h x (by simp)
      simp [List.dropWhile_cons, hx]

lemma pyStrip_idem (s : Str) : pyStrip (pyStrip s) = pyStrip s := by
  have h1 : (pyStrip s).dropWhile isPyWS = pyStrip s :=
    dropWhile_eq_self_of_head _ _ (fun c hc => pyStrip_head_not_ws s c hc)
  have h2 : (pyStrip s).reverse.dropWhile isPyWS = (pyStrip s).reverse := by
    apply dropWhile_eq_self_of_head
    intro c hc
    rw [List.head?_reverse] at hc
    exact pyStrip_getLast_not_ws s c hc
  have hdef : pyStrip (pyStrip s)
      = (((pyStrip s).dropWhile isPyWS).reverse.dropWhile isPyWS).reverse := rfl
  rw [hdef, h1, h2, List.reverse_reverse]

lemma geminiLoop_ok_mem (m : Str → Except Str Str) (t : Str) (qs : List Str)
    (ans : List Str) (h : (geminiLoop m t qs).1 = .ok ans) :
    ∀ a ∈ ans, ∃ r, a = pyStrip r := by
  induction qs generalizing ans with
  | nil =>
      simp [geminiLoop] at h
      subst h
      simp
  | cons q qs ih =>
      rw [geminiLoop] at h
      cases hm : m (buildPrompt t q) with
      | error e => rw [hm] at h; simp at h
      | ok r =>
          rw [hm] at h
          cases hrest : geminiLoop m t qs with
          | mk res calls =>
              rw [hrest] at h
              cases res with
              | error e => simp at h
              | ok answers =>
                  simp only at h
                  injection h with h
                  subst h
                  intro a ha
                  rcases List.mem_cons.1 ha with h' | h'
                  · exact ⟨r, h'⟩
                  · exact ih answers (by rw [hrest]) a h'

/-! Claim theorems. -/

/-- C1: for every request whose model loop completes successfully, the
returned answers list has exactly one entry per question, and the i-th
answer is the model's (stripped) response to the prompt built for the
i-th question — `process_with_gemini` performs no reordering,
deduplication, or filtering of questions. -/
theorem c1_answers_align_with_questions (m : Str → Except Str Str)
    (text : Str) (questions answers : List Str)
    (h : process_with_gemini m text questions = .ok answers) :
    answers.length = questions.length ∧
    ∀ (i : Nat) (q : Str), questions[i]? = some q →
      ∃ r, m (buildPrompt text q) = .ok r ∧ answers[i]? = some (pyStrip r) := by
  unfold process_with_gemini at h
  cases hl : (geminiLoop m text questions).1 with
  | error e => rw [hl] at h; simp at h
  | ok a =>
      rw [hl] at h
      simp only at h
      injection h with h
      subst h
      exact geminiLoop_ok_spec m text questions _ hl

/-- Constant model oracle used in the C1 and C9 witnesses. -/
def mConstAns : Str → Except Str Str := fun _ => .ok "  a ".toList

/-- Witness for C1 at a concrete two-question run. -/
theorem c1_answers_align_with_questions_witness :
    ([['a'], ['a']] : List Str).length = (["q1".toList, "q2".toList]).length ∧
    ∀ (i : Nat) (q : Str),
      (["q1".toList, "q2".toList] : List Str)[i]? = some q →
      ∃ r, mConstAns (buildPrompt "doc".toList q) = .ok r ∧
        ([['a'], ['a']] : List Str)[i]? = some (pyStrip r) :=
  c1_answers_align_with_questions mConstAns "doc".toList
    ["q1".toList, "q2".toList] [['a'], ['a']] (by rfl)

/-- C2: if the model invocation fails on question k (any k) while all
earlier questions succeeded, the whole request fails with the 500-class
model-invocation error, no answers value is returned at all, and exactly
k+1 prompts were sent — the remaining questions are never attempted. -/
theorem c2_model_failure_fails_whole_request (m : Str → Except Str Str)
    (text : Str) (questions : List Str) (k : Nat) (qk e : Str)
    (hk : questions[k]? = some qk)
    (hbefore : ∀ (j : Nat) (qj : Str), j < k → questions[j]? = some qj →
      ∃ r, m (buildPrompt text qj) = .ok r)
    (hfail : m (buildPrompt text qk) = .error e) :
    process_with_gemini m text questions =
      .error ⟨500, "Error processing with AI: ".toList ++ e⟩ ∧
    (geminiLoop m text questions).2.length = k + 1 := by
  obtain ⟨h1, h2⟩ := geminiLoop_err_spec m text questions k qk e hk hbefore hfail
  refine ⟨?_, h2⟩
  unfold process_with_gemini
  rw [h1]

/-- Model oracle used in the C2 witness: raises exactly on the prompt built
for question "c" (the third question). -/
def mFailOnC : Str → Except Str Str := fun p =>
  if p = buildPrompt [] "c".toList then .error "boom".toList
  else .ok "ok".toList

set_option maxRecDepth 8192 in
/-- Witness for C2: the model fails on the third of three questions (k = 2);
the request returns the 500 error and only three prompts were sent. -/
theorem c2_model_failure_fails_whole_request_witness :
    process_with_gemini mFailOnC [] ["a".toList, "b".toList, "c".toList] =
      .error ⟨500, "Error processing with AI: ".toList ++ "boom".toList⟩ ∧
    (geminiLoop mFailOnC [] ["a".toList, "b".toList, "c".toList]).2.length = 3 :=
  c2_model_failure_fails_whole_request mFailOnC [] _ 2 "c".toList "boom".toList
    (by decide)
    (by
      intro j qj hj hq
      interval_cases j
      · simp only [List.getElem?_cons_zero, Option.some.injEq] at hq
        subst hq
        exact ⟨"ok".toList, by simp only [mFailOnC]; rw [if_neg (by decide)]⟩
      · simp only [List.getElem?_cons_succ, List.getElem?_cons_zero,
          Option.some.injEq] at hq
        subst hq
        exact ⟨"ok".toList, by simp only [mFailOnC]; rw [if_neg (by decide)]⟩)
    (by simp [mFailOnC])

/-- C5: the text budgeter `text[:C]` takes exactly the first C characters:
its output never exceeds C, it is idempotent, and it is the identity on
texts already within the budget. -/
theorem c5_budget_prefix_properties (text : Str) (C : Nat) :
    (budget text C).length ≤ C ∧
    budget (budget text C) C = budget text C ∧
    (text.length ≤ C → budget text C = text) := by
  refine ⟨?_, ?_, ?_⟩
  · rw [budget, List.length_take]; omega
  · rw [budget, budget, List.take_take, Nat.min_self]
  · intro h; exact List.take_of_length_le h

/-- Witness for C5 at text "hello" and the reference budget C = 8000. -/
theorem c5_budget_prefix_properties_witness :
    (budget "hello".toList 8000).length ≤ 8000 ∧
    budget (budget "hello".toList 8000) 8000 = budget "hello".toList 8000 ∧
    budget "hello".toList 8000 = "hello".toList :=
  ⟨(c5_budget_prefix_properties "hello".toList 8000).1,
   (c5_budget_prefix_properties "hello".toList 8000).2.1,
   (c5_budget_prefix_properties "hello".toList 8000).2.2 (by decide)⟩

/-- Text of `promptPart3` that precedes the fallback phrase. -/
def fbPre : Str :=
  "\n            \n            Please provide a clear, concise answer based on the document content. If the answer is not found in the document, say \"".toList

/-- Text of `promptPart3` that follows the fallback phrase. -/
def fbPost : Str := "\"\n            ".toList

set_option maxRecDepth 8192 in
/-- C8: the prompt builder is a deterministic function of the budgeted text
and the question: it equals the fixed template, it embeds the budgeted
text and the literal question, and it contains the fallback phrase
"Information not found in the document." verbatim. -/
theorem c8_prompt_builder_embeds (text question : Str) :
    buildPrompt text question =
      promptPart1 ++ budget text 8000 ++ promptPart2 ++ question ++ promptPart3 ∧
    (∃ a b, buildPrompt text question = a ++ budget text 8000 ++ b) ∧
    (∃ a b, buildPrompt text question = a ++ question ++ b) ∧
    (∃ a b, buildPrompt text question = a ++ fallbackPhrase ++ b) := by
  have h3 : promptPart3 = fbPre ++ fallbackPhrase ++ fbPost := by decide
  refine ⟨rfl,
    ⟨promptPart1, promptPart2 ++ question ++ promptPart3, by
      simp [buildPrompt, List.append_assoc]⟩,
    ⟨promptPart1 ++ budget text 8000 ++ promptPart2, promptPart3, by
      simp [buildPrompt, List.append_assoc]⟩,
    ⟨promptPart1 ++ budget text 8000 ++ promptPart2 ++ question ++ fbPre,
      fbPost, by rw [buildPrompt, h3]; simp [List.append_assoc]⟩⟩

/-- C9: every answer string in a successful result is the stripped model
response: stripping it again changes nothing (so it has no leading or
trailing whitespace), and its first and last characters, when present,
are not whitespace. -/
theorem c9_answers_are_stripped (m : Str → Except Str Str)
    (text : Str) (questions answers : List Str)
    (h : process_with_gemini m text questions = .ok answers) :
    ∀ a ∈ answers, pyStrip a = a ∧
      (a.head?.all fun c => !isPyWS c) = true ∧
      (a.getLast?.all fun c => !isPyWS c) = true := by
  unfold process_with_gemini at h
  cases hl : (geminiLoop m text questions).1 with
  | error e => rw [hl] at h; simp at h
  | ok a =>
      rw [hl] at h
      simp only at h
      injection h with h
      subst h
      intro x hx
      obtain ⟨r, hr⟩ := geminiLoop_ok_mem m text questions _ hl x hx
      subst hr
      refine ⟨pyStrip_idem r, ?_, ?_⟩
      · cases hc : (pyStrip r).head? with
        | none => rfl
        | some c => simp [Option.all, pyStrip_head_not_ws r c hc]
      · cases hc : (pyStrip r).getLast? with
        | none => rfl
        | some c => simp [Option.all, pyStrip_getLast_not_ws r c hc]

/-- Witness for C9 at a concrete run whose raw model response has
surrounding whitespace. -/
theorem c9_answers_are_stripped_witness :
    pyStrip ['a'] = ['a'] ∧
    ((['a'] : Str).head?.all fun c => !isPyWS c) = true ∧
    ((['a'] : Str).getLast?.all fun c => !isPyWS c) = true :=
  c9_answers_are_stripped mConstAns "doc".toList ["q1".toList] [['a']]
    (by rfl) ['a'] (by decide)

/-- C10: the upload extension gate lowercases the extension produced by
`os.path.splitext` before comparing with the allowed set, so a filename
whose extension differs from .pdf/.doc/.docx only in letter case is
accepted by the gate. -/
theorem c10_gate_is_case_insensitive (f e : Str)
    (hsplit : splitextExt f = e) (hlower : lowerStr e ∈ allowed_extensions) :
    extGateAccepts f = true := by
  unfold extGateAccepts fileExtOf
  rw [hsplit]
  exact List.elem_iff.2 hlower

/-- Witness for C10: "report.DocX" passes the gate. -/
theorem c10_gate_is_case_insensitive_witness :
    extGateAccepts "report.DocX".toList = true :=
  c10_gate_is_case_insensitive "report.DocX".toList ".DocX".toList
    (by decide) (by decide)

lemma fsRead_fsWrite_self (fs : FS) (p c : Str) :
    fsRead (fsWrite fs p c) p = some c := by
  simp [fsRead, fsWrite]

lemma extract_pdf_at_write (o : Oracles) (fs : FS) (p c : Str) :
    extract_text_from_pdf o (fsWrite fs p c) p =
      match o.pdfExtract c with
      | .error e => .error ⟨500, "Error processing PDF: ".toList ++ e⟩
      | .ok text => .ok text := by
  unfold extract_text_from_pdf
  rw [fsRead_fsWrite_self]

lemma process_document_url_after_download (o : Oracles) (url content : Str)
    (qs : List Str) (fs : FS) (hdl : o.download url = .ok content) :
    process_document_url o url qs fs =
      (match extract_text_from_pdf o
          (fsWrite fs (tempStem ++ ".pdf".toList) content)
          (tempStem ++ ".pdf".toList) with
       | .error e => .error e
       | .ok text =>
           match process_with_gemini o.model text qs with
           | .error e => .error e
           | .ok answers => .ok ⟨answers, qs.length, text.length⟩,
       fsDelete (fsWrite fs (tempStem ++ ".pdf".toList) content)
         (tempStem ++ ".pdf".toList)) := by
  simp only [process_document_url, download_document, hdl, ite_self,
    fsExists_fsWrite_self, if_true]

lemma process_file_upload_pdf_step (o : Oracles) (f c : Str) (qs : List Str)
    (fs : FS) (hext : fileExtOf f = ".pdf".toList) :
    process_file_upload o f c (.ok qs) fs =
      (match extract_text_from_pdf o
          (fsWrite fs (tempStem ++ ".pdf".toList) c)
          (tempStem ++ ".pdf".toList) with
       | .error e => .error e
       | .ok text =>
           match process_with_gemini o.model text qs with
           | .error e => .error e
           | .ok answers => .ok ⟨answers, qs.length, c.length, text.length, f⟩,
       fsDelete (fsWrite fs (tempStem ++ ".pdf".toList) c)
         (tempStem ++ ".pdf".toList)) := by
  have hgate : extGateAccepts f = true := by
    unfold extGateAccepts
    rw [hext]
    rfl
  simp only [process_file_upload, hext, hgate, if_true,
    fsExists_fsWrite_self]

lemma extract_docx_at_write (o : Oracles) (fs : FS) (p c : Str) :
    extract_text_from_docx o (fsWrite fs p c) p =
      match o.docxExtract c with
      | .error e => .error ⟨500, "Error processing DOCX: ".toList ++ e⟩
      | .ok text => .ok text := by
  unfold extract_text_from_docx
  rw [fsRead_fsWrite_self]

lemma process_file_upload_docx_step (o : Oracles) (f c : Str) (qs : List Str)
    (fs : FS)
    (hext : fileExtOf f = ".doc".toList ∨ fileExtOf f = ".docx".toList) :
    process_file_upload o f c (.ok qs) fs =
      (match extract_text_from_docx o
          (fsWrite fs (tempStem ++ fileExtOf f) c)
          (tempStem ++ fileExtOf f) with
       | .error e => .error e
       | .ok text =>
           match process_with_gemini o.model text qs with
           | .error e => .error e
           | .ok answers => .ok ⟨answers, qs.length, c.length, text.length, f⟩,
       fsDelete (fsWrite fs (tempStem ++ fileExtOf f) c)
         (tempStem ++ fileExtOf f)) := by
  rcases hext with hext | hext
  · have hgate : extGateAccepts f = true := by
      unfold extGateAccepts
      rw [hext]
      rfl
    have h1 : ¬ ((".doc".toList : Str) = ".pdf".toList) := by decide
    have h2 : ((".doc".toList : Str) = ".doc".toList ∨
        (".doc".toList : Str) = ".docx".toList) := by decide
    simp only [process_file_upload, hext, hgate, if_true, h1, if_false, h2,
      true_or, or_true, fsExists_fsWrite_self]
  · have hgate : extGateAccepts f = true := by
      unfold extGateAccepts
      rw [hext]
      rfl
    have h1 : ¬ ((".docx".toList : Str) = ".pdf".toList) := by decide
    have h2 : ((".docx".toList : Str) = ".doc".toList ∨
        (".docx".toList : Str) = ".docx".toList) := by decide
    simp only [process_file_upload, hext, hgate, if_true, h1, if_false, h2,
      true_or, or_true, fsExists_fsWrite_self]

/-- Oracles for the C3 counterexample: the download succeeds and the PDF
parser raises. -/
def oraclesC3 : Oracles :=
  ⟨fun _ => .ok "BYTES".toList, fun _ => .error "not a pdf".toList,
   fun _ => .ok [], fun _ => .ok "x".toList⟩

set_option maxRecDepth 8192 in
/-- C3 counterexample: a URL request for a document with extension ".exe"
(outside the recognized set) is not rejected with a 400-class error
before extraction: the URL path has no format gate at all, PDF extraction
is attempted on the downloaded bytes, and its failure surfaces as the
500-class PDF-processing error. -/
theorem c3_counterexample_url_has_no_format_gate :
    (process_document_url oraclesC3 "http://host/policy.exe".toList
        ["q".toList] []).1 =
      .error ⟨500, "Error processing PDF: not a pdf".toList⟩ := by rfl

/-- C3 amended: the format gate exists only on the upload endpoint: there a
filename whose lowercased extension is outside the allowed set is
rejected with the 400-class unsupported-type error before any temporary
write or extraction attempt (the result is the same for every choice of
external oracles and the filesystem is left unchanged); the URL endpoint
performs no format gating and always attempts PDF extraction. -/
theorem c3_upload_gate_rejects_before_extraction (o : Oracles)
    (filename content : Str) (qs : List Str) (fs : FS)
    (h : extGateAccepts filename = false) :
    process_file_upload o filename content (.ok qs) fs =
      (.error ⟨400, "Unsupported file type: ".toList ++ fileExtOf filename⟩,
       fs) := by
  simp [process_file_upload, h]

/-- Trivial oracles used by witnesses in which the oracle behavior is
irrelevant. -/
def oraclesTrivial : Oracles :=
  ⟨fun _ => .ok [], fun _ => .ok [], fun _ => .ok [], fun _ => .ok []⟩

/-- Witness for the amended C3 at an ".exe" upload. -/
theorem c3_upload_gate_rejects_before_extraction_witness :
    process_file_upload oraclesTrivial "virus.exe".toList "B".toList
        (.ok ["q".toList]) [] =
      (.error ⟨400, "Unsupported file type: ".toList ++
          fileExtOf "virus.exe".toList⟩, []) :=
  c3_upload_gate_rejects_before_extraction oraclesTrivial "virus.exe".toList
    "B".toList ["q".toList] [] (by decide)

/-- Oracles for the C4 counterexample: the PDF parser raises. -/
def oraclesC4 : Oracles :=
  ⟨fun _ => .ok "B".toList, fun _ => .error "bad xref".toList,
   fun _ => .ok [], fun _ => .ok "x".toList⟩

set_option maxRecDepth 8192 in
/-- C4 counterexample: a parser failure on a recognized format — a .pdf
upload whose PDF parse raises — surfaces with status 500, not with a
400-class error as the claim states. -/
theorem c4_counterexample_parser_failure_is_500 :
    (process_file_upload oraclesC4 "doc.pdf".toList "B".toList
        (.ok ["q".toList]) []).1 =
      .error ⟨500, "Error processing PDF: bad xref".toList⟩ := by rfl

/-- C4 amended: the caller-visible status mapping of the code is: download
failure 400-class; unsupported upload extension 400-class; parser failure
on a recognized format — PDF or DOCX — 500-class (not 400); model failure
500-class. -/
theorem c4_amended_status_mapping :
    (∀ (o : Oracles) (url : Str) (qs : List Str) (fs : FS) (e : Str),
      o.download url = .error e →
      (process_document_url o url qs fs).1 =
        .error ⟨400, "Error downloading document: ".toList ++ e⟩) ∧
    (∀ (o : Oracles) (f c : Str) (qs : List Str) (fs : FS),
      extGateAccepts f = false →
      (process_file_upload o f c (.ok qs) fs).1 =
        .error ⟨400, "Unsupported file type: ".toList ++ fileExtOf f⟩) ∧
    (∀ (o : Oracles) (f c : Str) (qs : List Str) (fs : FS) (e : Str),
      fileExtOf f = ".pdf".toList →
      o.pdfExtract c = .error e →
      (process_file_upload o f c (.ok qs) fs).1 =
        .error ⟨500, "Error processing PDF: ".toList ++ e⟩) ∧
    (∀ (o : Oracles) (f c : Str) (qs : List Str) (fs : FS) (e : Str),
      (fileExtOf f = ".doc".toList ∨ fileExtOf f = ".docx".toList) →
      o.docxExtract c = .error e →
      (process_file_upload o f c (.ok qs) fs).1 =
        .error ⟨500, "Error processing DOCX: ".toList ++ e⟩) ∧
    (∀ (o : Oracles) (url content text : Str) (qs : List Str) (fs : FS)
        (e : Str),
      o.download url = .ok content →
      o.pdfExtract content = .ok text →
      (geminiLoop o.model text qs).1 = .error e →
      (process_document_url o url qs fs).1 =
        .error ⟨500, "Error processing with AI: ".toList ++ e⟩) := by
  refine ⟨?_, ?_, ?_, ?_, ?_⟩
  · intro o url qs fs e h
    simp [process_document_url, download_document, h]
  · intro o f c qs fs h
    simp [process_file_upload, h]
  · intro o f c qs fs e hext hpdf
    rw [process_file_upload_pdf_step o f c qs fs hext]
    simp only [extract_pdf_at_write, hpdf]
  · intro o f c qs fs e hext hdocx
    rw [process_file_upload_docx_step o f c qs fs hext]
    simp only [extract_docx_at_write, hdocx]
  · intro o url content text qs fs e hdl hpdf hloop
    rw [process_document_url_after_download o url content qs fs hdl]
    simp only [extract_pdf_at_write, hpdf]
    simp only [process_with_gemini, hloop]

/-- Oracles whose download raises, for the C4 witness. -/
def oraclesDLFail : Oracles :=
  ⟨fun _ => .error "timeout".toList, fun _ => .ok [], fun _ => .ok [],
   fun _ => .ok []⟩

/-- Oracles whose model call raises, for the C4 witness. -/
def oraclesModelFail : Oracles :=
  ⟨fun _ => .ok "B".toList, fun _ => .ok "TEXT".toList, fun _ => .ok [],
   fun _ => .error "quota".toList⟩

/-- Oracles whose DOCX parser raises, for the C4 witness. -/
def oraclesDocxFail : Oracles :=
  ⟨fun _ => .ok "B".toList, fun _ => .ok [],
   fun _ => .error "bad zip".toList, fun _ => .ok "x".toList⟩

set_option maxRecDepth 8192 in
/-- Witness for the amended C4: all five status mappings at concrete runs. -/
theorem c4_amended_status_mapping_witness :
    (process_document_url oraclesDLFail "http://h/d.pdf".toList
        ["q".toList] []).1 =
      .error ⟨400, "Error downloading document: ".toList ++ "timeout".toList⟩ ∧
    (process_file_upload oraclesTrivial "a.exe".toList "B".toList
        (.ok ["q".toList]) []).1 =
      .error ⟨400, "Unsupported file type: ".toList ++
        fileExtOf "a.exe".toList⟩ ∧
    (process_file_upload oraclesC4 "d.pdf".toList "B".toList
        (.ok ["q".toList]) []).1 =
      .error ⟨500, "Error processing PDF: ".toList ++ "bad xref".toList⟩ ∧
    (process_file_upload oraclesDocxFail "d.docx".toList "B".toList
        (.ok ["q".toList]) []).1 =
      .error ⟨500, "Error processing DOCX: ".toList ++ "bad zip".toList⟩ ∧
    (process_document_url oraclesModelFail "http://h/d.pdf".toList
        ["q".toList] []).1 =
      .error ⟨500, "Error processing with AI: ".toList ++ "quota".toList⟩ :=
  ⟨c4_amended_status_mapping.1 oraclesDLFail "http://h/d.pdf".toList
      ["q".toList] [] "timeout".toList (by rfl),
   c4_amended_status_mapping.2.1 oraclesTrivial "a.exe".toList "B".toList
      ["q".toList] [] (by decide),
   c4_amended_status_mapping.2.2.1 oraclesC4 "d.pdf".toList "B".toList
      ["q".toList] [] "bad xref".toList (by decide) (by rfl),
   c4_amended_status_mapping.2.2.2.1 oraclesDocxFail "d.docx".toList
      "B".toList ["q".toList] [] "bad zip".toList (by decide) (by rfl),
   c4_amended_status_mapping.2.2.2.2 oraclesModelFail "http://h/d.pdf".toList
      "B".toList "TEXT".toList ["q".toList] [] "quota".toList (by rfl)
      (by rfl) (by rfl)⟩

/-- C6: the temporary artifact is released on every exit path: whatever the
oracles do (success, extraction failure, or model failure), after either
handler returns, the temporary path created for the request is absent
from the filesystem (assuming it was fresh before the request, as
`tempfile.NamedTemporaryFile` guarantees). -/
theorem c6_temp_artifact_released (o : Oracles) (url f content : Str)
    (qs : List Str) (qj : Except Unit (List Str)) (fs fs' : FS)
    (h1 : fsExists fs (tempStem ++ ".pdf".toList) = false)
    (h2 : fsExists fs' (tempStem ++ fileExtOf f) = false) :
    fsExists (process_document_url o url qs fs).2
      (tempStem ++ ".pdf".toList) = false ∧
    fsExists (process_file_upload o f content qj fs').2
      (tempStem ++ fileExtOf f) = false := by
  constructor
  · cases hdl : o.download url with
    | error e =>
        simp only [process_document_url, download_document, hdl]
        exact h1
    | ok content' =>
        rw [process_document_url_after_download o url content' qs fs hdl]
        exact fsExists_fsDelete_self _ _
  · cases qj with
    | error u =>
        simp only [process_file_upload]
        exact h2
    | ok qlist =>
        by_cases hg : extGateAccepts f = true
        · simp [process_file_upload, hg, fsExists_fsWrite_self,
            fsExists_fsDelete_self]
        · have hg' : extGateAccepts f = false := by
            cases hgc : extGateAccepts f
            · rfl
            · exact absurd hgc hg
          simp only [process_file_upload, hg', Bool.false_eq_true, if_false]
          exact h2

/-- Witness for C6 at concrete runs of both endpoints. -/
theorem c6_temp_artifact_released_witness :
    fsExists (process_document_url oraclesTrivial "http://h/d.pdf".toList
        ["q".toList] []).2 (tempStem ++ ".pdf".toList) = false ∧
    fsExists (process_file_upload oraclesTrivial "d.pdf".toList "B".toList
        (.ok ["q".toList]) []).2 (tempStem ++ fileExtOf "d.pdf".toList)
      = false :=
  c6_temp_artifact_released oraclesTrivial "http://h/d.pdf".toList
    "d.pdf".toList "B".toList ["q".toList] (.ok ["q".toList]) [] []
    (by decide) (by decide)

/-- Oracles for the C7 counterexample and witness: extraction succeeds. -/
def oraclesC7 : Oracles :=
  ⟨fun _ => .ok [], fun _ => .ok "TEXT".toList, fun _ => .ok [],
   fun _ => .ok "x".toList⟩

set_option maxRecDepth 8192 in
/-- C7 counterexample: an empty question list on the upload endpoint is not
rejected: the request runs extraction and completes successfully with an
empty answers list — no validation-class error occurs. -/
theorem c7_counterexample_upload_accepts_empty_questions :
    (process_file_upload oraclesC7 "d.pdf".toList "B".toList (.ok []) []).1 =
      .ok ⟨[], 0, 1, 4, "d.pdf".toList⟩ := by rfl

/-- C7 amended: only the URL endpoint rejects an empty question list — via
the pydantic schema (`min_items=1`) before any download, extraction, or
model call (the rejection is the same for every choice of oracles, and
the filesystem is untouched); the upload endpoint performs no emptiness
check, and a .pdf upload whose extraction succeeds completes successfully
with zero answers. -/
theorem c7_amended_empty_question_handling (o : Oracles) (url : Str)
    (fs fs' : FS) (f content text : Str)
    (hext : fileExtOf f = ".pdf".toList)
    (hx : o.pdfExtract content = .ok text) :
    urlEndpoint o url [] fs = (.error validationError, fs) ∧
    (process_file_upload o f content (.ok []) fs').1 =
      .ok ⟨[], 0, content.length, text.length, f⟩ := by
  constructor
  · simp [urlEndpoint]
  · rw [process_file_upload_pdf_step o f content [] fs' hext]
    simp only [extract_pdf_at_write, hx]
    rfl

/-- Witness for the amended C7 at concrete runs of both endpoints. -/
theorem c7_amended_empty_question_handling_witness :
    urlEndpoint oraclesC7 "http://h/d.pdf".toList [] [] =
      (.error validationError, []) ∧
    (process_file_upload oraclesC7 "d.pdf".toList "B".toList (.ok []) []).1 =
      .ok ⟨[], 0, "B".toList.length, "TEXT".toList.length, "d.pdf".toList⟩ :=
  c7_amended_empty_question_handling oraclesC7 "http://h/d.pdf".toList [] []
    "d.pdf".toList "B".toList "TEXT".toList (by decide) (by rfl)
